import Mathlib

/-
Verification of the public `workflow` package of the Cadence Go client SDK.

The package under `src/workflow/workflow.go` is the public facade: every
exported function forwards to the `internal` package, which implements the
deterministic execution core (dispatcher, futures, channels, marker
recorder, query dispatcher).  The internal implementation is not part of
the sources, so the core components are modelled here from the
specification's words; the facade itself (delegation, and the documented
panic behaviour of registration) is embedded from the source file.
-/

set_option linter.unusedVariables false

namespace Cadence

/-- Failure taxonomy from the spec's error-handling design: ApplicationFailure,
TimeoutFailure, CanceledFailure, PanicFailure, GenericFailure,
VersionIncompatibleFailure. -/
inductive Failure where
  | applicationFailure
  | timeoutFailure
  | canceledFailure
  | panicFailure
  | genericFailure
  | versionIncompatibleFailure
deriving DecidableEq

/-! ## Future (spec section 4.3) -/

/-- Modelled from the spec: the internal Future implementation
(`internal.Future`, behind `workflow.Future`) is not in the sources.
A Future has a state among Pending, Resolved and Failed. -/
inductive FutureState (α : Type) where
  | pending
  | resolved (v : α)
  | failed (e : Failure)
deriving DecidableEq

/-- Modelled from the spec: non-blocking readiness poll of a Future. -/
def FutureState.isReady {α : Type} : FutureState α → Bool
  | .pending => false
  | .resolved _ => true
  | .failed _ => true

/-- Modelled from the spec: single-assignment resolution.  A pending Future
takes the supplied outcome; resolving an already-resolved Future is a
no-op. -/
def resolveFuture {α : Type} (s : FutureState α) (out : Except Failure α) :
    FutureState α :=
  match s with
  | .pending =>
    match out with
    | .ok v => .resolved v
    | .error e => .failed e
  | .resolved v => .resolved v
  | .failed e => .failed e

/-- Modelled from the spec: Future.Get.  On a pending Future the calling
logical thread blocks (here: no observation, `none`); on a resolved or
failed Future it returns immediately with the recorded outcome. -/
def FutureState.get {α : Type} : FutureState α → Option (Except Failure α)
  | .pending => none
  | .resolved v => some (.ok v)
  | .failed e => some (.error e)

/-- Operations that can be applied to one Future after creation: resolution
attempts coming from the dispatcher. -/
inductive FOp (α : Type) where
  | resolve (out : Except Failure α)

/-- Applies a sequence of resolution attempts to a Future state. -/
def applyFOps {α : Type} (s : FutureState α) (ops : List (FOp α)) :
    FutureState α :=
  ops.foldl (fun st op => match op with | .resolve out => resolveFuture st out) s

/-! ## Channel (spec section 4.4) -/

/-- Modelled from the spec: the internal Channel implementation is not in
the sources.  A channel is an ordered queue of buffered values plus a queue
of blocked receivers (identified here by thread index), and a closed flag. -/
structure ChannelState (α : Type) where
  buffer : List α
  receivers : List Nat
  closed : Bool
deriving DecidableEq

/-- Result of one receive call. -/
inductive ReceiveResult (α : Type) where
  | value (v : α)
  | closedEmpty
  | blocked
deriving DecidableEq

/-- Modelled from the spec: send either hands the value directly to the
oldest blocked receiver (returned as `some tid`) or buffers it at the back
of the queue. -/
def channelSend {α : Type} (c : ChannelState α) (v : α) :
    ChannelState α × Option Nat :=
  match c.receivers with
  | r :: rs => ({ c with receivers := rs }, some r)
  | [] => ({ c with buffer := c.buffer ++ [v] }, none)

/-- Modelled from the spec: receive returns the oldest buffered value
(FIFO); on a closed empty channel it reports closed-no-more-values; on an
open empty channel the caller blocks. -/
def channelReceive {α : Type} (c : ChannelState α) :
    ReceiveResult α × ChannelState α :=
  match c.buffer with
  | v :: rest => (.value v, { c with buffer := rest })
  | [] => if c.closed then (.closedEmpty, c) else (.blocked, c)

/-! ## Marker recorder: SideEffect (spec section 4.5) -/

/-- Modelled from the spec: per-instance marker recorder state behind
`internal.SideEffect`, which is not in the sources.  `history` holds the
MarkerRecords already recorded (markerID, value) in ordinal order, `cursor`
is the ordinal position of the next marker-producing call, `nextMarkerID`
the freshly assigned id counter, `appended` the MarkerRecords appended to
history by this run. -/
structure MarkerState (α : Type) where
  history : List (Nat × α)
  cursor : Nat
  nextMarkerID : Nat
  appended : List (Nat × α)
deriving DecidableEq

/-- Marker recorder state of a run starting from a recorded history. -/
def initialMarkerState {α : Type} (h : List (Nat × α)) : MarkerState α :=
  { history := h, cursor := 0, nextMarkerID := 0, appended := [] }

/-- Modelled from the spec: sideEffect(fn).  When a MarkerRecord exists at
the current ordinal position this is replay: fn is not invoked and the
recorded value is returned.  Otherwise this is first execution: fn is
invoked once, a MarkerRecord with a freshly assigned markerID is appended
to history, and fn's value is returned.  The third component counts how
many times fn was invoked by the call. -/
def sideEffect {α : Type} (fn : Unit → α) (s : MarkerState α) :
    α × MarkerState α × Nat :=
  match s.history.get? s.cursor with
  | some (_, v) =>
    (v, { s with cursor := s.cursor + 1 }, 0)
  | none =>
    let v := fn ()
    (v, { s with cursor := s.cursor + 1,
                 nextMarkerID := s.nextMarkerID + 1,
                 appended := s.appended ++ [(s.nextMarkerID, v)] }, 1)

/-! ## Marker recorder: GetVersion (spec section 4.5) -/

/-- Version of a workflow change, as in `workflow.Version`. -/
abbrev Version := Int

/-- Modelled from the spec: per-run version-marker state behind
`internal.GetVersion`, which is not in the sources.  `recorded` holds the
VersionMarkers already in history keyed by changeID, `cached` the versions
resolved during the current run, `markers` the new VersionMarkers written
by the current run. -/
structure VersionState where
  recorded : List (String × Version)
  cached : List (String × Version)
  markers : List (String × Version)
deriving DecidableEq

/-- Looks up the version stored for a changeID. -/
def lookupID (l : List (String × Version)) (c : String) : Option Version :=
  (l.find? (fun p => p.1 == c)).map Prod.snd

/-- Outcome of one getVersion call: either a version, or a failure of the
current decision (recoverable: the decision task is retried, the process is
not crashed). -/
inductive GetVersionResult where
  | version (v : Version)
  | decisionFailed (f : Failure)
deriving DecidableEq

/-- Modelled from the spec: getVersion(changeID, minSupported,
maxSupported).  A repeated call for a changeID already resolved in this run
returns the identical version without re-recording.  On replay of a
recorded version v, v is returned when minSupported ≤ v ≤ maxSupported and
the decision fails with VersionIncompatibleFailure otherwise.  On first
execution maxSupported is recorded as a VersionMarker and returned. -/
def getVersion (s : VersionState) (changeID : String)
    (minSupported maxSupported : Version) : GetVersionResult × VersionState :=
  match lookupID s.cached changeID with
  | some v => (.version v, s)
  | none =>
    match lookupID s.recorded changeID with
    | some v =>
      if minSupported ≤ v ∧ v ≤ maxSupported then
        (.version v, { s with cached := (changeID, v) :: s.cached })
      else
        (.decisionFailed .versionIncompatibleFailure, s)
    | none =>
      (.version maxSupported,
       { s with cached := (changeID, maxSupported) :: s.cached,
                markers := s.markers ++ [(changeID, maxSupported)] })

/-! ## Dispatcher / Scheduler (spec section 4.2) -/

/-- Outgoing commands collected during one decision cycle (spec section 6:
schedule-activity, start-timer, start-child-workflow, cancel requests,
completion and failure). -/
inductive Command where
  | scheduleActivity (id : Nat)
  | startTimer (id : Nat)
  | startChildWorkflow (id : Nat)
  | requestCancelActivity (id : Nat)
  | completeWorkflow
  | failWorkflow
deriving DecidableEq

/-- Modelled from the spec: one instruction of workflow code run by a
logical thread between suspension points: emit an outgoing command, or
await a Future identified by its correlation token (the only suspension
point kept in this model). -/
inductive Instr where
  | emit (c : Command)
  | await (tok : Nat)
deriving DecidableEq

/-- Modelled from the spec: a logical thread, identified by its creation
order index, owning its remaining program. -/
structure LThread where
  tid : Nat
  prog : List Instr
deriving DecidableEq

/-- Incoming history events for the dispatcher model: resolution of the
Future with the given correlation token (activity completed, timer fired,
and so on). -/
inductive Event where
  | resolve (tok : Nat)
deriving DecidableEq

/-- Modelled from the spec: dispatcher state for one workflow instance:
the logical threads in creation order, the set of correlation tokens whose
Futures have been resolved by processed events, and the outgoing commands
collected so far in emission order. -/
structure DispState where
  threads : List LThread
  resolvedToks : List Nat
  commands : List Command
deriving DecidableEq

/-- Runs one instruction of the first runnable thread in creation order:
a thread is skipped when it is done (empty program) or blocked on an
unresolved token.  Returns `none` when no thread is runnable. -/
def stepThreads (resolvedToks : List Nat) (cmds : List Command) :
    List LThread → Option (List LThread × List Command)
  | [] => none
  | t :: ts =>
    match t.prog with
    | [] => (stepThreads resolvedToks cmds ts).map (fun p => (t :: p.1, p.2))
    | .emit c :: rest => some ({ t with prog := rest } :: ts, cmds ++ [c])
    | .await tok :: rest =>
      if resolvedToks.contains tok then some ({ t with prog := rest } :: ts, cmds)
      else (stepThreads resolvedToks cmds ts).map (fun p => (t :: p.1, p.2))

/-- Modelled from the spec: one scheduling step of the dispatcher.  The
runnable threads are re-scanned in creation order after every step, so the
first runnable thread keeps running until it blocks or completes.  `none`
means no thread is runnable and processEvents returns. -/
def stepFn (s : DispState) : Option DispState :=
  (stepThreads s.resolvedToks s.commands s.threads).map
    (fun p => { s with threads := p.1, commands := p.2 })

/-- Applies one incoming history event to the dispatcher state (spec:
events update Future state before threads run; here, the token becomes
resolved). -/
def applyEvent (s : DispState) (e : Event) : DispState :=
  match e with
  | .resolve tok => { s with resolvedToks := s.resolvedToks ++ [tok] }

/-- Applies an ordered batch of history events in the order supplied. -/
def applyEvents (s : DispState) (es : List Event) : DispState :=
  es.foldl applyEvent s

/-- Reflexive-transitive closure of the scheduling step. -/
inductive RunsTo : DispState → DispState → Prop where
  | refl (s : DispState) : RunsTo s s
  | step {s s' t : DispState} : stepFn s = some s' → RunsTo s' t → RunsTo s t

/-- Modelled from the spec: one complete invocation of
processEvents(events) from state `s0`: the event batch is applied in
order, then the scheduler runs threads until no thread is runnable, ending
in `final`. -/
def ProcessOutcome (s0 : DispState) (events : List Event)
    (final : DispState) : Prop :=
  RunsTo (applyEvents s0 events) final ∧ stepFn final = none

/-! ## Cancellation of pending activities (spec section 5) -/

/-- Lifecycle status of one activity operation issued by the instance. -/
inductive ActStatus where
  | pendingAct
  | doneAct
  | cancelRequested
deriving DecidableEq

/-- Modelled from the spec: the Future observed for an activity in a given
status: pending while the activity is pending, resolved once completed,
failed with CanceledFailure once the surrounding context was cancelled. -/
def futureOfStatus : ActStatus → FutureState Unit
  | .pendingAct => .pending
  | .doneAct => .resolved ()
  | .cancelRequested => .failed .canceledFailure

/-- Modelled from the spec: state of one cancellable context and the
activities issued under it: the fresh correlation-token counter, the ids
issued so far in creation order, the pending-operation table keyed by
activity id, and the outgoing commands in emission order. -/
structure CancelState where
  nextID : Nat
  issued : List Nat
  status : Nat → Option ActStatus
  cmds : List Command

/-- Operations on a cancellable context: schedule a new activity under it,
cancel the context, or apply an external completion event for an
activity. -/
inductive COp where
  | execActivity
  | cancelContext
  | completeActivity (id : Nat)
deriving DecidableEq

/-- Cancel-request commands emitted by a context cancellation: one per
activity that is still pending, in creation order. -/
def cancelCmds (s : CancelState) : List Command :=
  (s.issued.filter
    (fun i => decide (s.status i = some ActStatus.pendingAct))).map
    Command.requestCancelActivity

/-- Modelled from the spec: effect of one operation.  execActivity issues a
fresh activity id and emits its schedule-activity command; cancelContext
fails every still-pending Future with CanceledFailure and converts the
command already issued for it into a cancellation request; completeActivity
resolves a still-pending activity (a completion arriving after cancellation
changes nothing, the Future being single-assignment) and emits nothing. -/
def applyCOp (s : CancelState) : COp → CancelState
  | .execActivity =>
    { nextID := s.nextID + 1,
      issued := s.issued ++ [s.nextID],
      status := fun i =>
        if i = s.nextID then some ActStatus.pendingAct else s.status i,
      cmds := s.cmds ++ [Command.scheduleActivity s.nextID] }
  | .cancelContext =>
    { s with
      status := fun i =>
        if s.status i = some ActStatus.pendingAct then
          some ActStatus.cancelRequested
        else s.status i,
      cmds := s.cmds ++ cancelCmds s }
  | .completeActivity id =>
    { s with
      status := fun i =>
        if i = id ∧ s.status i = some ActStatus.pendingAct then
          some ActStatus.doneAct
        else s.status i }

/-- Applies a sequence of operations. -/
def applyCOps (s : CancelState) (ops : List COp) : CancelState :=
  ops.foldl applyCOp s

/-- True when the command concerns the given activity id. -/
def cmdMentions (c : Command) (id : Nat) : Bool :=
  match c with
  | .scheduleActivity i => i == id
  | .requestCancelActivity i => i == id
  | .startTimer _ => false
  | .startChildWorkflow _ => false
  | .completeWorkflow => false
  | .failWorkflow => false

/-! ## Query Dispatcher (spec section 4.6) -/

/-- Failure of one query invocation, distinguishable from a successful
empty result: no handler registered for the query type, or the handler
itself failed. -/
inductive QueryFailure where
  | noHandler
  | handlerFailed (msg : String)
deriving DecidableEq

/-- Modelled from the spec: instance state visible to queries.  `vars` is
the current snapshot of state reachable from ordinary variables, `handlers`
the query handlers keyed by query type (a handler is a function of the
snapshot and the arguments), `pendingHistory` the history events pending
for the instance, `threadCount` the number of logical threads. -/
structure QueryState (σ : Type) where
  vars : σ
  handlers : List (String × (σ → List String → Except String String))
  pendingHistory : List Event
  threadCount : Nat

/-- Handler registered for a query type, if any. -/
def lookupHandler {σ : Type}
    (hs : List (String × (σ → List String → Except String String)))
    (queryType : String) : Option (σ → List String → Except String String) :=
  (hs.find? (fun p => p.1 == queryType)).map Prod.snd

/-- Modelled from the spec: setQueryHandler(queryType, handler): duplicate
registration for the same type replaces the prior handler. -/
def setQueryHandler {σ : Type} (w : QueryState σ) (queryType : String)
    (handler : σ → List String → Except String String) : QueryState σ :=
  { w with handlers :=
      (queryType, handler) :: w.handlers.filter (fun p => p.1 != queryType) }

/-- Modelled from the spec: dispatch(queryType, args) runs the registered
handler against the current snapshot of the ordinary variables.  Handlers
are pure functions of the snapshot, so the model has no way to spawn
threads or suspend inside one; the workflow state is returned alongside the
query result. -/
def dispatchQuery {σ : Type} (w : QueryState σ) (queryType : String)
    (args : List String) : Except QueryFailure String × QueryState σ :=
  match lookupHandler w.handlers queryType with
  | none => (.error .noHandler, w)
  | some h =>
    match h w.vars args with
    | .ok v => (.ok v, w)
    | .error msg => (.error (.handlerFailed msg), w)

/-! ## Registration facade (src/workflow/workflow.go, Register and
RegisterWithOptions) -/

/-- Go types occurring in the signatures the Register doc comment accepts. -/
inductive GoType where
  | contextType
  | byteSliceType
  | intType
  | stringType
  | errorType
  | otherSerializable
deriving DecidableEq

/-- Shape of a candidate workflow function: its parameter types and result
types in order. -/
structure FuncShape where
  params : List GoType
  results : List GoType
deriving DecidableEq

/-- Expected format from the Register doc comment in the source: a workflow
takes a workflow context (first parameter) and input, and returns a
(result, error) pair or just an error. -/
def compliesWithFormat (f : FuncShape) : Bool :=
  (f.params.head? == some .contextType) &&
  (match f.results with
   | [GoType.errorType] => true
   | [r, GoType.errorType] => r != .errorType
   | _ => false)

/-- Outcome of calling Register: either the function was registered, or the
call panicked. -/
inductive RegisterOutcome where
  | registered
  | panicked
deriving DecidableEq

/-- Embedded from the source doc comment of `Register` (and of
`RegisterWithOptions`): "This method calls panic if workflowFunc doesn't
comply with the expected format."  The body of `internal.RegisterWorkflow`
is not in the sources; its documented behaviour is taken from the facade's
own comment. -/
def Register (f : FuncShape) : RegisterOutcome :=
  if compliesWithFormat f then .registered else .panicked

/-- Result of running a piece of user workflow or activity code: a normal
value, or an abrupt fault raised inside it. -/
inductive UserCodeResult (α : Type) where
  | ok (v : α)
  | fault (msg : String)
deriving DecidableEq

/-- Outcome observed by the engine after running user code: the process
keeps running either way. -/
inductive ExecOutcome (α : Type) where
  | value (v : α)
  | failed (f : Failure)
deriving DecidableEq

/-- Modelled from the spec: an unexpected fault inside user code is
captured and converted to PanicFailure rather than terminating the
process. -/
def captureFault {α : Type} : UserCodeResult α → ExecOutcome α
  | .ok v => .value v
  | .fault _ => .failed .panicFailure

/-! ## Public facade (src/workflow/workflow.go) -/

/-- Interface of the `internal` package as used by the public `workflow`
package.  The internal implementation is not in the sources, so every type
it manipulates and every function the facade calls is kept abstract: one
field per internal function, over abstract carrier types. -/
structure InternalImpl where
  Context : Type
  FuncV : Type
  ArgV : Type
  RegisterOptionsT : Type
  RegEffect : Type
  FutureT : Type
  ChildWorkflowFutureT : Type
  ChannelT : Type
  EncodedValue : Type
  VersionT : Type
  InfoT : Type
  LoggerT : Type
  MetricsScopeT : Type
  GoError : Type
  registerWorkflow : FuncV → RegEffect
  registerWorkflowWithOptions : FuncV → RegisterOptionsT → RegEffect
  executeActivity : Context → FuncV → List ArgV → FutureT
  executeLocalActivity : Context → FuncV → List ArgV → FutureT
  executeChildWorkflow : Context → FuncV → List ArgV → ChildWorkflowFutureT
  getWorkflowInfo : Context → InfoT
  getLogger : Context → LoggerT
  getMetricsScope : Context → MetricsScopeT
  requestCancelWorkflow : Context → String → String → Option GoError
  signalExternalWorkflow : Context → String → String → String → ArgV → FutureT
  getSignalChannel : Context → String → ChannelT
  sideEffect : Context → (Context → ArgV) → EncodedValue
  getVersion : Context → String → VersionT → VersionT → VersionT
  setQueryHandler : Context → String → FuncV → Option GoError

namespace workflow

/-- Embedded from the source: the exported `Register` delegation. -/
def Register (impl : InternalImpl) (workflowFunc : impl.FuncV) :
    impl.RegEffect :=
  impl.registerWorkflow workflowFunc

/-- Embedded from the source: `RegisterWithOptions`. -/
def RegisterWithOptions (impl : InternalImpl) (workflowFunc : impl.FuncV)
    (opts : impl.RegisterOptionsT) : impl.RegEffect :=
  impl.registerWorkflowWithOptions workflowFunc opts

/-- Embedded from the source: `ExecuteActivity`. -/
def ExecuteActivity (impl : InternalImpl) (ctx : impl.Context)
    (activity : impl.FuncV) (args : List impl.ArgV) : impl.FutureT :=
  impl.executeActivity ctx activity args

/-- Embedded from the source: `ExecuteLocalActivity`. -/
def ExecuteLocalActivity (impl : InternalImpl) (ctx : impl.Context)
    (activity : impl.FuncV) (args : List impl.ArgV) : impl.FutureT :=
  impl.executeLocalActivity ctx activity args

/-- Embedded from the source: `ExecuteChildWorkflow`. -/
def ExecuteChildWorkflow (impl : InternalImpl) (ctx : impl.Context)
    (childWorkflow : impl.FuncV) (args : List impl.ArgV) :
    impl.ChildWorkflowFutureT :=
  impl.executeChildWorkflow ctx childWorkflow args

/-- Embedded from the source: `GetInfo`. -/
def GetInfo (impl : InternalImpl) (ctx : impl.Context) : impl.InfoT :=
  impl.getWorkflowInfo ctx

/-- Embedded from the source: `GetLogger`. -/
def GetLogger (impl : InternalImpl) (ctx : impl.Context) : impl.LoggerT :=
  impl.getLogger ctx

/-- Embedded from the source: `GetMetricsScope`. -/
def GetMetricsScope (impl : InternalImpl) (ctx : impl.Context) :
    impl.MetricsScopeT :=
  impl.getMetricsScope ctx

/-- Embedded from the source: `RequestCancelWorkflow`. -/
def RequestCancelWorkflow (impl : InternalImpl) (ctx : impl.Context)
    (workflowID runID : String) : Option impl.GoError :=
  impl.requestCancelWorkflow ctx workflowID runID

/-- Embedded from the source: `SignalExternalWorkflow`. -/
def SignalExternalWorkflow (impl : InternalImpl) (ctx : impl.Context)
    (workflowID runID signalName : String) (arg : impl.ArgV) : impl.FutureT :=
  impl.signalExternalWorkflow ctx workflowID runID signalName arg

/-- Embedded from the source: `GetSignalChannel`. -/
def GetSignalChannel (impl : InternalImpl) (ctx : impl.Context)
    (signalName : String) : impl.ChannelT :=
  impl.getSignalChannel ctx signalName

/-- Embedded from the source: `SideEffect`. -/
def SideEffect (impl : InternalImpl) (ctx : impl.Context)
    (f : impl.Context → impl.ArgV) : impl.EncodedValue :=
  impl.sideEffect ctx f

/-- Embedded from the source: `GetVersion`. -/
def GetVersion (impl : InternalImpl) (ctx : impl.Context) (changeID : String)
    (minSupported maxSupported : impl.VersionT) : impl.VersionT :=
  impl.getVersion ctx changeID minSupported maxSupported

/-- Embedded from the source: `SetQueryHandler`. -/
def SetQueryHandler (impl : InternalImpl) (ctx : impl.Context)
    (queryType : String) (handler : impl.FuncV) : Option impl.GoError :=
  impl.setQueryHandler ctx queryType handler

end workflow

/-! ## Helper lemmas -/

theorem resolveFuture_of_ready {α : Type} (s : FutureState α)
    (out : Except Failure α) (h : s.isReady = true) :
    resolveFuture s out = s := by
  cases s with
  | pending => simp [FutureState.isReady] at h
  | resolved v => rfl
  | failed e => rfl

theorem isReady_resolveFuture_pending {α : Type} (out : Except Failure α) :
    (resolveFuture FutureState.pending out).isReady = true := by
  cases out <;> rfl

theorem applyFOps_of_ready {α : Type} (ops : List (FOp α)) (s : FutureState α)
    (h : s.isReady = true) : applyFOps s ops = s := by
  induction ops generalizing s with
  | nil => rfl
  | cons op rest ih =>
    cases op with
    | resolve out =>
      show applyFOps (resolveFuture s out) rest = s
      rw [resolveFuture_of_ready s out h]
      exact ih s h

theorem get_resolveFuture_pending {α : Type} (out : Except Failure α) :
    (resolveFuture FutureState.pending out).get = some out := by
  cases out <;> rfl

/-! ## Claim theorems -/

/-- C4: every Future is set at most once: resolving an already-resolved
Future is a no-op, and every call to Get after resolution (Get may be
called any number of times) observes the value or error of the first
resolution, whatever resolution attempts have happened in between. -/
theorem C4_future_single_assignment {α : Type} (first : Except Failure α)
    (later : List (FOp α)) :
    (∀ (s : FutureState α) (out : Except Failure α),
      s.isReady = true → resolveFuture s out = s) ∧
    applyFOps (resolveFuture FutureState.pending first) later
      = resolveFuture FutureState.pending first ∧
    (applyFOps (resolveFuture FutureState.pending first) later).get
      = some first := by
  refine ⟨fun s out h => resolveFuture_of_ready s out h, ?_, ?_⟩
  · exact applyFOps_of_ready later _ (isReady_resolveFuture_pending first)
  · rw [applyFOps_of_ready later _ (isReady_resolveFuture_pending first)]
    exact get_resolveFuture_pending first

/-- Witness for C4 at a concrete future holding 42, with one later
conflicting resolution attempt. -/
theorem C4_future_single_assignment_witness :
    resolveFuture (FutureState.resolved (1 : Nat)) (Except.ok 2)
      = FutureState.resolved 1 ∧
    applyFOps (resolveFuture FutureState.pending (Except.ok (42 : Nat)))
        [FOp.resolve (Except.ok 7)]
      = resolveFuture FutureState.pending (Except.ok 42) ∧
    (applyFOps (resolveFuture FutureState.pending (Except.ok (42 : Nat)))
        [FOp.resolve (Except.ok 7)]).get = some (Except.ok 42) :=
  ⟨(C4_future_single_assignment (Except.ok 42) [FOp.resolve (Except.ok 7)]).1
      (FutureState.resolved 1) (Except.ok 2) (by decide),
   (C4_future_single_assignment (Except.ok 42) [FOp.resolve (Except.ok 7)]).2.1,
   (C4_future_single_assignment (Except.ok 42) [FOp.resolve (Except.ok 7)]).2.2⟩

/-- C5: channels are FIFO: two values sent in order to a channel with no
waiting receiver and empty buffer are received back in the same order, and
receive always returns the oldest buffered value. -/
theorem C5_channel_fifo {α : Type} (v1 v2 : α) (c : ChannelState α)
    (hr : c.receivers = []) (hb : c.buffer = []) :
    ((channelReceive (channelSend (channelSend c v1).1 v2).1).1
        = ReceiveResult.value v1 ∧
     (channelReceive
        (channelReceive (channelSend (channelSend c v1).1 v2).1).2).1
        = ReceiveResult.value v2) ∧
    ∀ (d : ChannelState α) (w : α) (rest : List α),
      d.buffer = w :: rest →
      (channelReceive d).1 = ReceiveResult.value w := by
  obtain ⟨cb, cr, ccl⟩ := c
  simp only at hr hb
  subst hr hb
  refine ⟨⟨rfl, rfl⟩, ?_⟩
  intro d w rest hd
  simp [channelReceive, hd]

/-- Witness for C5 at concrete values 1 and 2 over a fresh open channel. -/
theorem C5_channel_fifo_witness :
    ((channelReceive
        (channelSend (channelSend (ChannelState.mk ([] : List Nat) [] false) 1).1 2).1).1
        = ReceiveResult.value 1 ∧
     (channelReceive
        (channelReceive
          (channelSend (channelSend (ChannelState.mk ([] : List Nat) [] false) 1).1 2).1).2).1
        = ReceiveResult.value 2) ∧
    (channelReceive (ChannelState.mk [(5 : Nat)] [] false)).1
        = ReceiveResult.value 5 :=
  ⟨(C5_channel_fifo 1 2 (ChannelState.mk [] [] false) rfl rfl).1,
   (C5_channel_fifo 1 2 (ChannelState.mk [] [] false) rfl rfl).2
      (ChannelState.mk [5] [] false) 5 [] rfl⟩

/-- C2: on first execution (no MarkerRecord at the current ordinal
position) sideEffect(fn) calls fn exactly once, appends a MarkerRecord
with a freshly assigned markerID, and returns fn's value; on replay (a
MarkerRecord exists at the current ordinal position) it returns the
recorded value without invoking the — possibly redefined — function; and
replaying the history produced by a first execution returns the original
value with zero invocations of the redefined function. -/
theorem C2_sideEffect_replay_stability {α : Type} (fn fn2 : Unit → α)
    (s : MarkerState α) (h : s.history.get? s.cursor = none) :
    ((sideEffect fn s).1 = fn () ∧
     (sideEffect fn s).2.2 = 1 ∧
     (sideEffect fn s).2.1.appended = s.appended ++ [(s.nextMarkerID, fn ())] ∧
     (sideEffect fn s).2.1.nextMarkerID = s.nextMarkerID + 1) ∧
    (∀ (recID : Nat) (recV : α) (s2 : MarkerState α),
      s2.history.get? s2.cursor = some (recID, recV) →
      (sideEffect fn2 s2).1 = recV ∧ (sideEffect fn2 s2).2.2 = 0) ∧
    ((sideEffect fn2 (initialMarkerState
        (sideEffect fn (initialMarkerState [])).2.1.appended)).1 = fn () ∧
     (sideEffect fn2 (initialMarkerState
        (sideEffect fn (initialMarkerState [])).2.1.appended)).2.2 = 0) := by
  refine ⟨?_, ?_, ?_, ?_⟩
  · rw [List.get?_eq_getElem?] at h
    simp [sideEffect, h]
  · intro recID recV s2 h2
    rw [List.get?_eq_getElem?] at h2
    simp [sideEffect, h2]
  · rfl
  · rfl

/-- Witness for C2: fn returns 42 on first execution; on replay the
redefined function returning 7 is not consulted and 42 comes back. -/
theorem C2_sideEffect_replay_stability_witness :
    ((sideEffect (fun _ => (42 : Nat)) (initialMarkerState [])).1 = 42 ∧
     (sideEffect (fun _ => (42 : Nat)) (initialMarkerState [])).2.2 = 1 ∧
     (sideEffect (fun _ => (42 : Nat)) (initialMarkerState [])).2.1.appended
        = [] ++ [(0, 42)] ∧
     (sideEffect (fun _ => (42 : Nat)) (initialMarkerState [])).2.1.nextMarkerID
        = 0 + 1) ∧
    ((sideEffect (fun _ => (7 : Nat)) (initialMarkerState
        (sideEffect (fun _ => (42 : Nat)) (initialMarkerState [])).2.1.appended)).1
        = 42 ∧
     (sideEffect (fun _ => (7 : Nat)) (initialMarkerState
        (sideEffect (fun _ => (42 : Nat)) (initialMarkerState [])).2.1.appended)).2.2
        = 0) :=
  ⟨(C2_sideEffect_replay_stability (fun _ => 42) (fun _ => 7)
      (initialMarkerState []) rfl).1,
   (C2_sideEffect_replay_stability (fun _ => 42) (fun _ => 7)
      (initialMarkerState []) rfl).2.2⟩

theorem lookupID_cons_self (l : List (String × Version)) (c : String)
    (v : Version) : lookupID ((c, v) :: l) c = some v := by
  simp [lookupID, List.find?_cons]

/-- C3: getVersion on first execution for a changeID records maxSupported
as a VersionMarker and returns it; on replay of a recorded version v it
returns v when minSupported ≤ v ≤ maxSupported and fails the current
decision with VersionIncompatibleFailure (an ordinary recoverable result,
not a crash) when v lies outside the bounds. -/
theorem C3_getVersion_bounds (s : VersionState) (changeID : String)
    (minS maxS : Version) :
    (lookupID s.cached changeID = none →
     lookupID s.recorded changeID = none →
      getVersion s changeID minS maxS =
        (GetVersionResult.version maxS,
         { s with cached := (changeID, maxS) :: s.cached,
                  markers := s.markers ++ [(changeID, maxS)] })) ∧
    (∀ v : Version, lookupID s.cached changeID = none →
      lookupID s.recorded changeID = some v →
      minS ≤ v → v ≤ maxS →
      getVersion s changeID minS maxS =
        (GetVersionResult.version v,
         { s with cached := (changeID, v) :: s.cached })) ∧
    (∀ v : Version, lookupID s.cached changeID = none →
      lookupID s.recorded changeID = some v →
      (v < minS ∨ maxS < v) →
      getVersion s changeID minS maxS =
        (GetVersionResult.decisionFailed Failure.versionIncompatibleFailure,
         s)) := by
  refine ⟨?_, ?_, ?_⟩
  · intro hc hrec
    simp [getVersion, hc, hrec]
  · intro v hc hrec h1 h2
    simp [getVersion, hc, hrec, h1, h2]
  · intro v hc hrec hout
    have hnot : ¬(minS ≤ v ∧ v ≤ maxS) := by
      intro hand
      rcases hand with ⟨h1, h2⟩
      rcases hout with h | h
      · exact absurd h1 (not_le.mpr h)
      · exact absurd h2 (not_le.mpr h)
    simp [getVersion, hc, hrec, hnot]

/-- Witness for C3: first execution records 2; replay of recorded version
1 succeeds against bounds 0..2 and fails against bounds 2..3. -/
theorem C3_getVersion_bounds_witness :
    getVersion ⟨[], [], []⟩ "c" 0 2 =
      (GetVersionResult.version 2, ⟨[], [("c", 2)], [("c", 2)]⟩) ∧
    getVersion ⟨[("c", 1)], [], []⟩ "c" 0 2 =
      (GetVersionResult.version 1, ⟨[("c", 1)], [("c", 1)], []⟩) ∧
    getVersion ⟨[("c", 1)], [], []⟩ "c" 2 3 =
      (GetVersionResult.decisionFailed Failure.versionIncompatibleFailure,
       ⟨[("c", 1)], [], []⟩) :=
  ⟨(C3_getVersion_bounds ⟨[], [], []⟩ "c" 0 2).1 rfl rfl,
   (C3_getVersion_bounds ⟨[("c", 1)], [], []⟩ "c" 0 2).2.1 1 rfl rfl
      (by decide) (by decide),
   (C3_getVersion_bounds ⟨[("c", 1)], [], []⟩ "c" 2 3).2.2 1 rfl rfl
      (Or.inl (by decide))⟩

/-- C7: once a getVersion call for a changeID has returned a version in
some run, every repeated call for the same changeID in that run — with any
bounds — returns the identical version and leaves the state (in particular
the written markers) unchanged: later calls never re-record. -/
theorem C7_getVersion_repeated (s : VersionState) (changeID : String)
    (minS maxS minS2 maxS2 : Version) (v : Version) (s' : VersionState)
    (h : getVersion s changeID minS maxS = (GetVersionResult.version v, s')) :
    getVersion s' changeID minS2 maxS2 = (GetVersionResult.version v, s') := by
  unfold getVersion at h
  split at h
  · rename_i w hc
    simp only [Prod.mk.injEq, GetVersionResult.version.injEq] at h
    obtain ⟨hv, hs⟩ := h
    subst hv
    subst hs
    simp [getVersion, hc]
  · rename_i hc
    split at h
    · rename_i w hrec
      split at h
      · simp only [Prod.mk.injEq, GetVersionResult.version.injEq] at h
        obtain ⟨hv, hs⟩ := h
        subst hv
        subst hs
        simp [getVersion, lookupID_cons_self]
      · simp at h
    · rename_i hrec
      simp only [Prod.mk.injEq, GetVersionResult.version.injEq] at h
      obtain ⟨hv, hs⟩ := h
      subst hv
      subst hs
      simp [getVersion, lookupID_cons_self]

/-- Witness for C7: after the first call records version 2 for changeID c,
a repeated call with different bounds returns the identical version 2 and
the identical state. -/
theorem C7_getVersion_repeated_witness :
    getVersion ⟨[], [("c", 2)], [("c", 2)]⟩ "c" 0 5 =
      (GetVersionResult.version 2, ⟨[], [("c", 2)], [("c", 2)]⟩) :=
  C7_getVersion_repeated ⟨[], [], []⟩ "c" 0 2 0 5 2
    ⟨[], [("c", 2)], [("c", 2)]⟩ (by decide)

/-- C9: dispatching a query runs the registered handler against the
current snapshot of the workflow state and — whether the query succeeds,
the handler fails, or no handler is registered — the instance's variables,
handlers, pending history, and logical-thread count are unchanged; no
history event is produced or consumed and no thread is spawned. -/
theorem C9_query_dispatch_frame {σ : Type} (w : QueryState σ)
    (queryType : String) (args : List String) :
    (dispatchQuery w queryType args).2 = w ∧
    (dispatchQuery w queryType args).2.pendingHistory = w.pendingHistory ∧
    (dispatchQuery w queryType args).2.threadCount = w.threadCount ∧
    (∀ h, lookupHandler w.handlers queryType = some h →
      (dispatchQuery w queryType args).1 =
        (match h w.vars args with
         | .ok v => .ok v
         | .error msg => .error (QueryFailure.handlerFailed msg))) ∧
    (lookupHandler w.handlers queryType = none →
      (dispatchQuery w queryType args).1 = .error QueryFailure.noHandler) := by
  have hstate : (dispatchQuery w queryType args).2 = w := by
    unfold dispatchQuery
    split
    · rfl
    · split <;> rfl
  refine ⟨hstate, by rw [hstate], by rw [hstate], ?_, ?_⟩
  · intro h hh
    unfold dispatchQuery
    rw [hh]
    cases hres : h w.vars args <;> simp [hres]
  · intro hn
    unfold dispatchQuery
    rw [hn]

/-- Witness for C9 at a concrete instance: a registered handler reads the
snapshot and the state is unchanged; an unregistered query type fails with
a distinguishable error and the state is again unchanged. -/
theorem C9_query_dispatch_frame_witness :
    (dispatchQuery
        (QueryState.mk "started" [("state", fun v _ => Except.ok v)] [] 1)
        "state" []).2 =
      QueryState.mk "started" [("state", fun v _ => Except.ok v)] [] 1 ∧
    (dispatchQuery
        (QueryState.mk "started" ([] :
          List (String × (String → List String → Except String String))) [] 1)
        "other" []).1 = Except.error QueryFailure.noHandler :=
  ⟨(C9_query_dispatch_frame
      (QueryState.mk "started" [("state", fun v _ => Except.ok v)] [] 1)
      "state" []).1,
   (C9_query_dispatch_frame
      (QueryState.mk "started" ([] :
        List (String × (String → List String → Except String String))) [] 1)
      "other" []).2.2.2.2 rfl⟩

/-- C10: every exported function of the workflow package is a pure
delegation: for every internal implementation and all arguments, it
forwards the arguments unchanged to the corresponding internal function
and returns its result unchanged. -/
theorem C10_workflow_pure_delegation (impl : InternalImpl) :
    (∀ f, workflow.Register impl f = impl.registerWorkflow f) ∧
    (∀ f opts, workflow.RegisterWithOptions impl f opts
        = impl.registerWorkflowWithOptions f opts) ∧
    (∀ ctx a args, workflow.ExecuteActivity impl ctx a args
        = impl.executeActivity ctx a args) ∧
    (∀ ctx a args, workflow.ExecuteLocalActivity impl ctx a args
        = impl.executeLocalActivity ctx a args) ∧
    (∀ ctx cw args, workflow.ExecuteChildWorkflow impl ctx cw args
        = impl.executeChildWorkflow ctx cw args) ∧
    (∀ ctx, workflow.GetInfo impl ctx = impl.getWorkflowInfo ctx) ∧
    (∀ ctx, workflow.GetLogger impl ctx = impl.getLogger ctx) ∧
    (∀ ctx, workflow.GetMetricsScope impl ctx = impl.getMetricsScope ctx) ∧
    (∀ ctx wid rid, workflow.RequestCancelWorkflow impl ctx wid rid
        = impl.requestCancelWorkflow ctx wid rid) ∧
    (∀ ctx wid rid sn arg, workflow.SignalExternalWorkflow impl ctx wid rid sn arg
        = impl.signalExternalWorkflow ctx wid rid sn arg) ∧
    (∀ ctx sn, workflow.GetSignalChannel impl ctx sn
        = impl.getSignalChannel ctx sn) ∧
    (∀ ctx f, workflow.SideEffect impl ctx f = impl.sideEffect ctx f) ∧
    (∀ ctx cid minS maxS, workflow.GetVersion impl ctx cid minS maxS
        = impl.getVersion ctx cid minS maxS) ∧
    (∀ ctx qt handler, workflow.SetQueryHandler impl ctx qt handler
        = impl.setQueryHandler ctx qt handler) :=
  ⟨fun _ => rfl, fun _ _ => rfl, fun _ _ _ => rfl, fun _ _ _ => rfl,
   fun _ _ _ => rfl, fun _ => rfl, fun _ => rfl, fun _ => rfl,
   fun _ _ _ => rfl, fun _ _ _ _ _ => rfl, fun _ _ => rfl, fun _ _ => rfl,
   fun _ _ _ _ => rfl, fun _ _ _ => rfl⟩

/-- C8 counterexample: a malformed workflow function (no parameters, no
results) makes Register panic — registration is not signalled by a
returned result type, contradicting the claim that malformed registration
is never signalled by a panic.  The panic behaviour is the one the source
documents for Register and RegisterWithOptions. -/
theorem C8_register_counterexample :
    compliesWithFormat (FuncShape.mk [] []) = false ∧
    Register (FuncShape.mk [] []) = RegisterOutcome.panicked := by
  constructor
  · rfl
  · rfl

/-- C8 amended: malformed registration of a workflow function is signalled
by a registration-time panic, exactly as the source documents; a complying
function registers without panicking; and abrupt runtime faults inside
user code are captured and converted to PanicFailure rather than
terminating the process. -/
theorem C8_register_panic_behaviour (f : FuncShape) :
    (compliesWithFormat f = false → Register f = RegisterOutcome.panicked) ∧
    (compliesWithFormat f = true → Register f = RegisterOutcome.registered) ∧
    (∀ (α : Type) (msg : String),
      captureFault (UserCodeResult.fault msg)
        = (ExecOutcome.failed Failure.panicFailure : ExecOutcome α)) := by
  refine ⟨?_, ?_, fun α msg => rfl⟩
  · intro h
    unfold Register
    rw [h]
    rfl
  · intro h
    unfold Register
    rw [h]
    rfl

/-- Witness for the amended C8: a function taking a context and returning
just an error registers; a function with no context parameter panics; a
fault in user code surfaces as PanicFailure. -/
theorem C8_register_panic_behaviour_witness :
    Register (FuncShape.mk [GoType.contextType] [GoType.errorType])
      = RegisterOutcome.registered ∧
    Register (FuncShape.mk [GoType.intType] [GoType.errorType])
      = RegisterOutcome.panicked ∧
    captureFault (UserCodeResult.fault "boom")
      = (ExecOutcome.failed Failure.panicFailure : ExecOutcome Nat) :=
  ⟨(C8_register_panic_behaviour
      (FuncShape.mk [GoType.contextType] [GoType.errorType])).2.1 (by decide),
   (C8_register_panic_behaviour
      (FuncShape.mk [GoType.intType] [GoType.errorType])).1 (by decide),
   (C8_register_panic_behaviour
      (FuncShape.mk [] [])).2.2 Nat "boom"⟩

/-- Invariant holding from the moment the context surrounding an activity
was cancelled: the activity's status is cancelRequested and its id is below
the fresh-id counter. -/
def CancelledInv (s : CancelState) (id : Nat) : Prop :=
  s.status id = some ActStatus.cancelRequested ∧ id < s.nextID

theorem count_map_requestCancel (l : List Nat) (id : Nat) :
    (l.map Command.requestCancelActivity).count
      (Command.requestCancelActivity id) = l.count id := by
  induction l with
  | nil => rfl
  | cons a t ih => simp [List.count_cons, ih]

theorem count_filter_of_pos (l : List Nat) (id : Nat) (p : Nat → Bool)
    (hp : p id = true) : (l.filter p).count id = l.count id := by
  induction l with
  | nil => rfl
  | cons a t ih =>
    by_cases ha : a = id
    · subst ha
      simp [List.filter_cons, hp, List.count_cons, ih]
    · cases hpa : p a <;>
        simp [List.filter_cons, hpa, List.count_cons, ha, ih]

theorem cancelCmds_count_one (s : CancelState) (id : Nat)
    (hstat : s.status id = some ActStatus.pendingAct)
    (honce : s.issued.count id = 1) :
    (cancelCmds s).count (Command.requestCancelActivity id) = 1 := by
  unfold cancelCmds
  rw [count_map_requestCancel, count_filter_of_pos _ _ _ (by simp [hstat])]
  exact honce

theorem applyCOp_preserves_cancelled (s : CancelState) (id : Nat) (op : COp)
    (h : CancelledInv s id) :
    CancelledInv (applyCOp s op) id ∧
    ∃ new : List Command, (applyCOp s op).cmds = s.cmds ++ new ∧
      ∀ c ∈ new, cmdMentions c id = false := by
  obtain ⟨hst, hlt⟩ := h
  cases op with
  | execActivity =>
    refine ⟨⟨?_, ?_⟩, [Command.scheduleActivity s.nextID], rfl, ?_⟩
    · show (if id = s.nextID then some ActStatus.pendingAct else s.status id)
        = some ActStatus.cancelRequested
      rw [if_neg (by omega)]
      exact hst
    · show id < s.nextID + 1
      omega
    · intro c hc
      rw [List.mem_singleton] at hc
      subst hc
      simp only [cmdMentions, beq_eq_false_iff_ne, ne_eq]
      omega
  | cancelContext =>
    refine ⟨⟨?_, hlt⟩, cancelCmds s, rfl, ?_⟩
    · show (if s.status id = some ActStatus.pendingAct
          then some ActStatus.cancelRequested else s.status id)
        = some ActStatus.cancelRequested
      rw [if_neg (by simp [hst])]
      exact hst
    · intro c hc
      unfold cancelCmds at hc
      simp only [List.mem_map, List.mem_filter, decide_eq_true_eq] at hc
      obtain ⟨i, ⟨hi, hpend⟩, hcc⟩ := hc
      subst hcc
      simp only [cmdMentions, beq_eq_false_iff_ne, ne_eq]
      intro hii
      subst hii
      rw [hst] at hpend
      simp at hpend
  | completeActivity j =>
    refine ⟨⟨?_, hlt⟩, [], by simp [applyCOp], by simp⟩
    show (if id = j ∧ s.status id = some ActStatus.pendingAct
        then some ActStatus.doneAct else s.status id)
      = some ActStatus.cancelRequested
    rw [if_neg ?_]
    · exact hst
    · intro hand
      rw [hst] at hand
      simp at hand

theorem applyCOps_no_mention (ops : List COp) (s : CancelState) (id : Nat)
    (h : CancelledInv s id) :
    CancelledInv (applyCOps s ops) id ∧
    ∃ tail : List Command, (applyCOps s ops).cmds = s.cmds ++ tail ∧
      ∀ c ∈ tail, cmdMentions c id = false := by
  induction ops generalizing s with
  | nil => exact ⟨h, [], by simp [applyCOps], by simp⟩
  | cons op rest ih =>
    obtain ⟨h1, new, hnew, hmnew⟩ := applyCOp_preserves_cancelled s id op h
    obtain ⟨h2, tail, htail, hmtail⟩ := ih (applyCOp s op) h1
    refine ⟨h2, new ++ tail, ?_, ?_⟩
    · have hstep : applyCOps s (op :: rest) = applyCOps (applyCOp s op) rest :=
        rfl
      rw [hstep, htail, hnew, List.append_assoc]
    · intro c hc
      rcases List.mem_append.mp hc with hcm | hcm
      · exact hmnew c hcm
      · exact hmtail c hcm

/-- C6: cancelling the context surrounding a pending activity Future makes
Get on that Future return CanceledFailure, emits exactly one
cancel-request command for the activity, and after the cancellation no
operation sequence ever emits another command mentioning that activity. -/
theorem C6_cancellation_propagation (s : CancelState) (id : Nat)
    (hstat : s.status id = some ActStatus.pendingAct)
    (hlt : id < s.nextID)
    (honce : s.issued.count id = 1) :
    ((applyCOp s COp.cancelContext).status id
        = some ActStatus.cancelRequested ∧
     (futureOfStatus ActStatus.cancelRequested).get
        = some (Except.error Failure.canceledFailure)) ∧
    ((applyCOp s COp.cancelContext).cmds = s.cmds ++ cancelCmds s ∧
     (cancelCmds s).count (Command.requestCancelActivity id) = 1) ∧
    (∀ ops : List COp, ∃ tail : List Command,
      (applyCOps (applyCOp s COp.cancelContext) ops).cmds
          = (applyCOp s COp.cancelContext).cmds ++ tail ∧
      ∀ c ∈ tail, cmdMentions c id = false) := by
  have hcanc : (applyCOp s COp.cancelContext).status id
      = some ActStatus.cancelRequested := by
    show (if s.status id = some ActStatus.pendingAct
        then some ActStatus.cancelRequested else s.status id)
      = some ActStatus.cancelRequested
    rw [if_pos hstat]
  refine ⟨⟨hcanc, rfl⟩, ⟨rfl, cancelCmds_count_one s id hstat honce⟩, ?_⟩
  intro ops
  exact (applyCOps_no_mention ops (applyCOp s COp.cancelContext) id
    ⟨hcanc, hlt⟩).2

/-- Witness for C6: one activity scheduled from a fresh context, then the
context is cancelled: the status shows cancelRequested and exactly one
cancel-request command is emitted for it. -/
theorem C6_cancellation_propagation_witness :
    (applyCOp (applyCOp (CancelState.mk 0 [] (fun _ => none) [])
        COp.execActivity) COp.cancelContext).status 0
      = some ActStatus.cancelRequested ∧
    (cancelCmds (applyCOp (CancelState.mk 0 [] (fun _ => none) [])
        COp.execActivity)).count (Command.requestCancelActivity 0) = 1 :=
  ⟨(C6_cancellation_propagation
      (applyCOp (CancelState.mk 0 [] (fun _ => none) []) COp.execActivity) 0
      (by decide) (by decide) (by decide)).1.1,
   (C6_cancellation_propagation
      (applyCOp (CancelState.mk 0 [] (fun _ => none) []) COp.execActivity) 0
      (by decide) (by decide) (by decide)).2.1.2⟩

theorem runsTo_unique (s t1 : DispState) (h1 : RunsTo s t1) :
    stepFn t1 = none → ∀ t2, RunsTo s t2 → stepFn t2 = none → t1 = t2 := by
  induction h1 with
  | refl s =>
    intro ht1 t2 h2 ht2
    cases h2 with
    | refl => rfl
    | step hs _ =>
      rw [ht1] at hs
      cases hs
  | step hs hrest ih =>
    intro ht1 t2 h2 ht2
    cases h2 with
    | refl =>
      rw [ht2] at hs
      cases hs
    | step hs2 hrest2 =>
      injection hs.symm.trans hs2 with he
      subst he
      exact ih ht1 t2 hrest2 ht2

/-- C1: processEvents is deterministic: for a fixed ordered event history,
any two independent complete invocations from the same starting state — as
after a crash-and-replay — end in the same state, and in particular
produce the identical ordered list of outgoing commands. -/
theorem C1_processEvents_deterministic (s0 : DispState) (events : List Event)
    (f1 f2 : DispState) (h1 : ProcessOutcome s0 events f1)
    (h2 : ProcessOutcome s0 events f2) :
    f1.commands = f2.commands ∧ f1 = f2 := by
  have he : f1 = f2 :=
    runsTo_unique (applyEvents s0 events) f1 h1.1 h1.2 f2 h2.1 h2.2
  exact ⟨by rw [he], he⟩

/-- Initial dispatcher state of the C1 witness: one thread that schedules
activity 0 and then awaits the Future with correlation token 5. -/
def wDisp0 : DispState :=
  ⟨[⟨0, [Instr.emit (Command.scheduleActivity 0), Instr.await 5]⟩], [], []⟩

/-- Event history of the C1 witness. -/
def wEvents : List Event := [Event.resolve 5]

/-- Intermediate state of the C1 witness run. -/
def wDisp1 : DispState :=
  ⟨[⟨0, [Instr.await 5]⟩], [5], [Command.scheduleActivity 0]⟩

/-- Final state of the C1 witness run. -/
def wDisp2 : DispState := ⟨[⟨0, []⟩], [5], [Command.scheduleActivity 0]⟩

/-- Witness for C1: a concrete complete run over a one-event history
exists, and two invocations of it agree on the outgoing commands. -/
theorem C1_processEvents_deterministic_witness :
    ProcessOutcome wDisp0 wEvents wDisp2 ∧
    wDisp2.commands = wDisp2.commands ∧ wDisp2 = wDisp2 := by
  have hrun : RunsTo (applyEvents wDisp0 wEvents) wDisp2 :=
    RunsTo.step
      (show stepFn (applyEvents wDisp0 wEvents) = some wDisp1 by decide)
      (RunsTo.step (show stepFn wDisp1 = some wDisp2 by decide)
        (RunsTo.refl wDisp2))
  have hout : ProcessOutcome wDisp0 wEvents wDisp2 := ⟨hrun, by decide⟩
  exact ⟨hout,
    C1_processEvents_deterministic wDisp0 wEvents wDisp2 wDisp2 hout hout⟩

end Cadence
